import Mathlib

/-!
Verification of the horizon-uncertainty-viewer repository: a shallow
embedding of `webviz_subsurface/_datainput/parse_model_file.py` and of
`webviz_subsurface/plugins/_horizon_uncertainty_viewer.py`, together with
theorems checking the stated behaviour of the embedded functions.

Conventions of the embedding:
* the filesystem is passed in explicitly: `os.path.isfile` becomes a
  function `isfile : String → Bool`, `os.listdir` becomes an explicit
  listing `List String`;
* a parsed `model_file.xml` (the BeautifulSoup document) becomes the
  record `XmlDoc`; a `find` that can miss becomes an `Option`;
* Python exceptions become `Except PyErr`; a Python function that can
  return `None` or a list becomes `Option (List _)`;
* numpy arrays of depths/distances become `List Int` (the zonelog logic
  only moves and filters these values, it never does arithmetic on them,
  so integer samples embed the relevant behaviour with no loss).
-/

/-- Python exceptions raised by the embedded code. -/
inductive PyErr where
  | fileNotFoundError
  | attributeError
  | indexError
  | valueError (msg : String)
deriving DecidableEq, Repr

deriving instance DecidableEq for Except

/-! ### `pathlib.Path` name/suffix/stem semantics -/

/-- Final path component, as `pathlib.Path(p).name`: the part after the
last `/`. -/
def pyName (p : String) : String :=
  (p.splitOn "/").getLastD p

/-- Index of the last `.` in a list of characters, if any. -/
def lastDotIndex (cs : List Char) : Option Nat :=
  (((cs.enum).filter (fun q => q.2 == '.')).map Prod.fst).getLast?

/-- Suffix of a bare file name, as `pathlib`: the final `.`-segment
`name[i:]` when the last dot is at an index `i` with `0 < i < len - 1`,
otherwise the empty string (so `".txt"` and `"a."` have suffix `""`). -/
def pySuffixOfName (name : String) : String :=
  let cs := name.toList
  match lastDotIndex cs with
  | none => ""
  | some i => if 0 < i ∧ i < cs.length - 1 then String.mk (cs.drop i) else ""

/-- Stem of a bare file name, as `pathlib`: the name with the suffix
removed when there is one, otherwise the whole name. -/
def pyStemOfName (name : String) : String :=
  let cs := name.toList
  match lastDotIndex cs with
  | none => name
  | some i => if 0 < i ∧ i < cs.length - 1 then String.mk (cs.take i) else name

/-- Suffix of `pathlib.Path(p)`. -/
def pySuffix (p : String) : String :=
  pySuffixOfName (pyName p)

/-- Stem of `pathlib.Path(p)`. -/
def pyStem (p : String) : String :=
  pyStemOfName (pyName p)

/-! ### The parsed `model_file.xml` document -/

/-- One `<surface>` wrapper element of `model_file.xml`.  A child that
`find` does not locate is `none` (BeautifulSoup returns `None`). -/
structure XmlSurface where
  name : Option String
  topOfZone : Option String
deriving DecidableEq, Repr

/-- The parsed `model_file.xml` document: its ordered `<surface>`
wrappers and the text of the first `<zone-log-name>` element (or `none`
when the element is absent). -/
structure XmlDoc where
  surfaces : List XmlSurface
  zoneLogName : Option String
deriving DecidableEq, Repr

/-- Embeds `extract_surface_names`: for each `<surface>` wrapper, the
text of its `<name>` child, in document order; calling `get_text()` on a
missing child raises `AttributeError`. -/
def extract_surface_names (doc : XmlDoc) : Except PyErr (List String) :=
  doc.surfaces.mapM (fun s =>
    match s.name with
    | none => Except.error PyErr.attributeError
    | some n => Except.ok n)

/-- Embeds `extract_topofzone_names`, analogously over the
`<top-of-zone>` children. -/
def extract_topofzone_names (doc : XmlDoc) : Except PyErr (List String) :=
  doc.surfaces.mapM (fun s =>
    match s.topOfZone with
    | none => Except.error PyErr.attributeError
    | some n => Except.ok n)

/-- Embeds `os.path.join(basedir, "output", "surfaces")`. -/
def surfacesDir (basedir : String) : String :=
  basedir ++ "/output/surfaces"

/-- Embeds `get_surface_files`: one `d_<name>.rxb` path per configured
surface name, raising `FileNotFoundError` when any of them is not a
file on disk. -/
def get_surface_files (isfile : String → Bool) (basedir : String) (doc : XmlDoc) :
    Except PyErr (List String) :=
  match extract_surface_names doc with
  | Except.error e => Except.error e
  | Except.ok surface_names =>
    let surface_files := surface_names.map
      (fun s => surfacesDir basedir ++ "/" ++ ("d_" ++ s ++ ".rxb"))
    if surface_files.all isfile then Except.ok surface_files
    else Except.error PyErr.fileNotFoundError

/-- Shared shape of the five `get_surface_<variant>_files` functions
(`tag` is the file-name tag `de_`, `dr_`, `dre_`, `dt_` or `dte_`): one
`<tag><name>.rxb` path per configured surface name, returning `None`
(embedded as `Option.none`) as soon as any of them is not a file on
disk, and the complete ordered list otherwise. -/
def surface_variant_files (tag : String) (isfile : String → Bool) (basedir : String)
    (doc : XmlDoc) : Except PyErr (Option (List String)) :=
  match extract_surface_names doc with
  | Except.error e => Except.error e
  | Except.ok surface_names =>
    let files := surface_names.map
      (fun s => surfacesDir basedir ++ "/" ++ (tag ++ s ++ ".rxb"))
    if files.all isfile then Except.ok (some files)
    else Except.ok none

/-- Embeds `get_surface_de_files`. -/
def get_surface_de_files : (String → Bool) → String → XmlDoc → Except PyErr (Option (List String)) :=
  surface_variant_files "de_"

/-- Embeds `get_surface_dr_files`. -/
def get_surface_dr_files : (String → Bool) → String → XmlDoc → Except PyErr (Option (List String)) :=
  surface_variant_files "dr_"

/-- Embeds `get_surface_dre_files`. -/
def get_surface_dre_files : (String → Bool) → String → XmlDoc → Except PyErr (Option (List String)) :=
  surface_variant_files "dre_"

/-- Embeds `get_surface_dt_files`. -/
def get_surface_dt_files : (String → Bool) → String → XmlDoc → Except PyErr (Option (List String)) :=
  surface_variant_files "dt_"

/-- Embeds `get_surface_dte_files`. -/
def get_surface_dte_files : (String → Bool) → String → XmlDoc → Except PyErr (Option (List String)) :=
  surface_variant_files "dte_"

/-- Embeds `get_well_files`: the files of the `input/welldata` listing
whose `pathlib` suffix is `.txt`, joined onto the directory and then
sorted in place (Python `list.sort()`, ascending lexicographic). -/
def get_well_files (basedir : String) (listing : List String) : List String :=
  let well_dir := basedir ++ "/input/welldata"
  let well_files := (listing.filter (fun file => pySuffix file == ".txt")).map
    (fun file => well_dir ++ "/" ++ file)
  well_files.mergeSort (fun a b => decide (a ≤ b))

/-- Embeds `get_zonelog_name`: the text of the first `<zone-log-name>`
element; `soup.find` returns `None` when the element is absent and the
`get_text()` call on it raises `AttributeError`. -/
def get_zonelog_name (doc : XmlDoc) : Except PyErr String :=
  match doc.zoneLogName with
  | none => Except.error PyErr.attributeError
  | some t => Except.ok t

/-! ### `_horizon_uncertainty_viewer.py`: surface colors -/

/-- The fixed six-color palette of `get_color`. -/
def hv_colors : List String :=
  ["rgb(255,0,0)", "rgb(255,140,0)", "rgb(0,0,255)",
   "rgb(128,128,128)", "rgb(255,0,255)", "rgb(255,215,0)"]

/-- Embeds `get_color`: `colors[i % n_colors]` over the fixed palette. -/
def get_color (i : Nat) : String :=
  let colors := hv_colors
  let n_colors := colors.length
  colors.get ⟨i % n_colors, Nat.mod_lt i (by decide)⟩

/-! ### `HorizonUncertaintyViewer.__init__` -/

/-- Plugin state produced by a successful `__init__`.  `fence_well` is
the well file whose `xtgeo` fence polyline seeds `self.xsec.fence`
(the actual fence construction is external I/O). -/
structure HVState where
  surfacefiles : List String
  surfacefiles_de : List String
  surface_attributes : List (String × String × String)
  surfacenames : List String
  wellfiles : List String
  wellnames : List String
  zonemin : Int
  zonelog : Option String
  zunit : String
  fence_well : String
deriving DecidableEq, Repr

/-- Embeds `HorizonUncertaintyViewer.__init__` in source order: first
the `surface_attributes` loop, whose `surfacefiles_de[i]` raises
`IndexError` when `surfacefiles_de` is shorter than `surfacefiles`;
then the `surfacenames` and `wellnames` length checks, each raising
`ValueError` (with the same copy-pasted message); finally
`wellfiles[0]`, which raises `IndexError` on an empty well list. -/
def hv_init (surfacefiles surfacefiles_de wellfiles : List String)
    (surfacenames wellnames : Option (List String)) (zonelog : Option String)
    (zunit : String) (zonemin : Int) : Except PyErr HVState :=
  if surfacefiles_de.length < surfacefiles.length then Except.error PyErr.indexError
  else
    let surface_attributes := (List.range surfacefiles.length).map
      (fun i => (surfacefiles.getD i "", get_color i, surfacefiles_de.getD i ""))
    let snamesRes : Except PyErr (List String) :=
      match surfacenames with
      | some ns =>
        if ns.length ≠ surfacefiles.length then
          Except.error (PyErr.valueError
            "List of surface names specified should be same length as list of surfacefiles")
        else Except.ok ns
      | none => Except.ok (surfacefiles.map pyStem)
    match snamesRes with
    | Except.error e => Except.error e
    | Except.ok snames =>
      let wnamesRes : Except PyErr (List String) :=
        match wellnames with
        | some ns =>
          if ns.length ≠ wellfiles.length then
            Except.error (PyErr.valueError
              "List of surface names specified should be same length as list of surfacefiles")
          else Except.ok ns
        | none => Except.ok (wellfiles.map pyStem)
      match wnamesRes with
      | Except.error e => Except.error e
      | Except.ok wnames =>
        match wellfiles with
        | [] => Except.error PyErr.indexError
        | w :: _ =>
          Except.ok
            { surfacefiles := surfacefiles
              surfacefiles_de := surfacefiles_de
              surface_attributes := surface_attributes
              surfacenames := snames
              wellfiles := wellfiles
              wellnames := wnames
              zonemin := zonemin
              zonelog := zonelog
              zunit := zunit
              fence_well := w }

/-! ### The cross-section render callback -/

/-- Embeds `HorizonUncertaintyViewer.ids`: `f"{element}-id-{self.uid}"`. -/
def idsOf (uid : String) (element : String) : String :=
  element ++ "-id-" ++ uid

/-- Embeds `_render_surface`.  The mutable `self.xsec` is abstracted to
its fence (of abstract type `F`); the external fence constructions
(`xtgeo.Well(...).get_fence_polyline` and `get_fencespec`) and the
cross-section computation
(`set_surface_lines`/`set_error_lines`/`get_plotly_sfc_data`, whose
module is outside this repository's sources) are abstract parameters,
with the data a function of the fence and the two checklist path lists.
The trigger dispatch on `ctx.triggered[0]['prop_id']` is embedded
exactly: the fence is replaced for the well-dropdown and map-polyline
triggers and kept for every other trigger, and the data is computed
from the resulting fence. -/
def renderSurface {F D : Type} (uid : String) (fenceFromWell : String → F)
    (fenceFromCoords : List (Int × Int) → F)
    (computeData : F → List String → List String → D)
    (trigger : String) (wellpath : String) (surfacepaths errorpaths : List String)
    (coords : List (Int × Int)) (fence : F) : F × D :=
  let fence1 :=
    if trigger == idsOf uid "well-dropdown" ++ ".value" then fenceFromWell wellpath
    else if trigger == idsOf uid "map-view" ++ ".polyline_points" then fenceFromCoords coords
    else fence
  (fence1, computeData fence1 surfacepaths errorpaths)

/-! ### `plot_well_zonelog` -/

/-- One entry of the list built by `plot_well_zonelog`: the plotly trace
dict for a single zone. -/
structure ZoneTrace where
  x : List Int
  y : List Int
  width : Nat
  color : String
  fillcolor : String
  name : String
deriving DecidableEq, Repr

/-- The `color` list of `plot_well_zonelog`. -/
def zoneColors : List String :=
  ["yellow", "orange", "green", "red", "grey"]

/-- Embeds `np.where(zonevals[:-1] != zonevals[1:])`: the strictly
increasing list of indices `t` with `zonevals[t] != zonevals[t+1]`. -/
def zoneTransitions (zonevals : List Int) : List Nat :=
  (List.range (zonevals.length - 1)).filter
    (fun t => zonevals.getD t 0 ≠ zonevals.getD (t + 1) 0)

/-- Embeds `np.insert(xs, idxs, vals)` for a strictly increasing index
list (the only shape produced here, coming from `zoneTransitions`):
each value is inserted before the element originally at its index, so
the `k`-th insertion lands at offset `idxs[k] + k` of the running
list. -/
def npInsert (xs : List Int) (idxs : List Nat) (vals : List Int) : List Int :=
  ((idxs.zip vals).enum).foldl (fun acc kv => acc.insertIdx (kv.2.1 + kv.1) kv.2.2) xs

/-- Embeds `plot_well_zonelog`.  The dataframe is its columns
(name/value pairs); `zvals`/`hvals` are the depth and distance arrays.
Mirrored behaviour: the early bare `return` (Python `None`, here
`Option.none`) when the zonelog column is absent; `int(min)`/`int(max)`
raising `ValueError` on an empty column; the raising of `zomin` to the
column minimum; the single pass over the `np.where` tuple doing the
three `np.insert` calls, with the `try`/`except IndexError` leaving the
arrays only partially updated when a fancy index is out of bounds (the
`zonevals` insertion indices are always in bounds); the
`ma.masked_where` shape check; and the `color[i]` lookup raising
`IndexError` when there are more than five zones in
`range(zomin, zomax + 1)`. -/
def plot_well_zonelog (df : List (String × List Int)) (zvals hvals : List Int)
    (zonelogname : String) (zomin : Int) : Except PyErr (Option (List ZoneTrace)) :=
  match df.lookup zonelogname with
  | none => Except.ok none
  | some zonevals =>
    if zonevals.isEmpty then
      Except.error (PyErr.valueError "cannot convert float NaN to integer")
    else
      let dataMin := zonevals.foldl min (zonevals.headD 0)
      let dataMax := zonevals.foldl max (zonevals.headD 0)
      let zomin1 := if zomin ≥ dataMin then zomin else dataMin
      let zomax := dataMax
      let trans := zoneTransitions zonevals
      let (zvals1, hvals1, zonevals1) :=
        if trans.all (fun t => t + 1 < zvals.length) then
          let zv := npInsert zvals trans (trans.map (fun t => zvals.getD (t + 1) 0))
          if trans.all (fun t => t + 1 < hvals.length) then
            let hv := npInsert hvals trans (trans.map (fun t => hvals.getD (t + 1) 0))
            let zo := npInsert zonevals trans (trans.map (fun t => zonevals.getD t 0))
            (zv, hv, zo)
          else (zv, hvals, zonevals)
        else (zvals, hvals, zonevals)
      if zonevals1.length ≠ zvals1.length ∨ zonevals1.length ≠ hvals1.length then
        Except.error PyErr.indexError
      else
        let zoneCount := zomax + 1 - zomin1
        if zoneCount > 5 then Except.error PyErr.indexError
        else
          let zones := (List.range zoneCount.toNat).map (fun k => zomin1 + (k : Int))
          Except.ok (some ((zones.enum).map (fun iz =>
            { x := ((zonevals1.zip hvals1).filter (fun q => q.1 == iz.2)).map Prod.snd
              y := ((zonevals1.zip zvals1).filter (fun q => q.1 == iz.2)).map Prod.snd
              width := 5
              color := zoneColors.getD iz.1 ""
              fillcolor := zoneColors.getD iz.1 ""
              name := "Zone: " ++ toString iz.2 })))

/-! ### Theorems -/

/-- C10: `get_color` assigns colors cyclically from the fixed palette of
6 colors: it is total over all natural-number indices, the color of
index `i` is `palette[i % 6]`, and any two indices that differ by a
multiple of 6 receive the same color. -/
theorem get_color_cyclic_palette :
    hv_colors.length = 6
    ∧ (∀ i : Nat, get_color i = hv_colors.get ⟨i % 6, Nat.mod_lt i (by decide)⟩)
    ∧ (∀ i k : Nat, get_color (i + 6 * k) = get_color i) := by
  refine ⟨rfl, fun i => rfl, fun i k => ?_⟩
  simp only [get_color]
  apply congrArg
  exact Fin.ext (Nat.add_mul_mod_self_left i 6 k)

/-- C8: when `<zone-log-name>` is absent from `model_file.xml`,
`get_zonelog_name` fails with the element-not-found condition (the
`AttributeError` from calling `get_text()` on the missing element) and
never returns a string; when the element is present, its text is
returned. -/
theorem get_zonelog_name_spec (doc : XmlDoc) :
    (doc.zoneLogName = none →
      get_zonelog_name doc = Except.error PyErr.attributeError
      ∧ ∀ s, get_zonelog_name doc ≠ Except.ok s)
    ∧ (∀ t, doc.zoneLogName = some t → get_zonelog_name doc = Except.ok t) := by
  constructor
  · intro h
    simp [get_zonelog_name, h]
  · intro t h
    simp [get_zonelog_name, h]

/-- Witness for C8 at concrete documents: one without and one with a
`<zone-log-name>` element. -/
theorem get_zonelog_name_spec_witness :
    get_zonelog_name ⟨[], none⟩ = Except.error PyErr.attributeError
    ∧ get_zonelog_name ⟨[], some "ZL"⟩ = Except.ok "ZL" :=
  ⟨((get_zonelog_name_spec ⟨[], none⟩).1 rfl).1,
   (get_zonelog_name_spec ⟨[], some "ZL"⟩).2 "ZL" rfl⟩

/-- C6: with the surface names read from the config, `get_surface_files`
returns the `d_<name>.rxb` path list in config order when every file
exists, and fails with `FileNotFoundError` when any mandatory base file
is missing. -/
theorem get_surface_files_spec (isfile : String → Bool) (basedir : String) (doc : XmlDoc)
    (names : List String) (h : extract_surface_names doc = Except.ok names) :
    ((names.map (fun s => surfacesDir basedir ++ "/" ++ ("d_" ++ s ++ ".rxb"))).all isfile = true →
      get_surface_files isfile basedir doc =
        Except.ok (names.map (fun s => surfacesDir basedir ++ "/" ++ ("d_" ++ s ++ ".rxb"))))
    ∧ ((names.map (fun s => surfacesDir basedir ++ "/" ++ ("d_" ++ s ++ ".rxb"))).all isfile = false →
      get_surface_files isfile basedir doc = Except.error PyErr.fileNotFoundError) := by
  have e : get_surface_files isfile basedir doc =
      (if (names.map (fun s => surfacesDir basedir ++ "/" ++ ("d_" ++ s ++ ".rxb"))).all isfile
       then Except.ok (names.map (fun s => surfacesDir basedir ++ "/" ++ ("d_" ++ s ++ ".rxb")))
       else Except.error PyErr.fileNotFoundError) := by
    unfold get_surface_files
    rw [h]
  constructor
  · intro hall
    rw [e, if_pos hall]
  · intro hall
    rw [e, if_neg (by simp [hall])]

/-- Witness for C6 at a one-surface config: a filesystem holding the
base file yields the full list, a filesystem missing it raises. -/
theorem get_surface_files_spec_witness :
    get_surface_files (fun _ => true) "b" ⟨[⟨some "s", some "t"⟩], none⟩ =
      Except.ok ["b/output/surfaces/d_s.rxb"]
    ∧ get_surface_files (fun _ => false) "b" ⟨[⟨some "s", some "t"⟩], none⟩ =
      Except.error PyErr.fileNotFoundError :=
  ⟨(get_surface_files_spec (fun _ => true) "b" ⟨[⟨some "s", some "t"⟩], none⟩ ["s"] rfl).1 rfl,
   (get_surface_files_spec (fun _ => false) "b" ⟨[⟨some "s", some "t"⟩], none⟩ ["s"] rfl).2 rfl⟩

/-- C5: for every uncertainty-variant tag (the five
`get_surface_<variant>_files` functions are instances of
`surface_variant_files` at tags `de_`, `dr_`, `dre_`, `dt_`, `dte_`),
the result is the complete ordered variant file list exactly when every
file of the set exists, the "no files" value `none` exactly when some
file is missing, and never a partial list. -/
theorem surface_variant_files_all_or_none (tag : String) (isfile : String → Bool)
    (basedir : String) (doc : XmlDoc) (names : List String)
    (h : extract_surface_names doc = Except.ok names) :
    (surface_variant_files tag isfile basedir doc =
        Except.ok (some (names.map (fun s => surfacesDir basedir ++ "/" ++ (tag ++ s ++ ".rxb"))))
      ↔ (names.map (fun s => surfacesDir basedir ++ "/" ++ (tag ++ s ++ ".rxb"))).all isfile = true)
    ∧ (surface_variant_files tag isfile basedir doc = Except.ok none
      ↔ (names.map (fun s => surfacesDir basedir ++ "/" ++ (tag ++ s ++ ".rxb"))).all isfile = false)
    ∧ (∀ l, surface_variant_files tag isfile basedir doc = Except.ok (some l) →
        l = names.map (fun s => surfacesDir basedir ++ "/" ++ (tag ++ s ++ ".rxb")))
    ∧ get_surface_de_files = surface_variant_files "de_"
    ∧ get_surface_dr_files = surface_variant_files "dr_"
    ∧ get_surface_dre_files = surface_variant_files "dre_"
    ∧ get_surface_dt_files = surface_variant_files "dt_"
    ∧ get_surface_dte_files = surface_variant_files "dte_" := by
  have e : surface_variant_files tag isfile basedir doc =
      (if (names.map (fun s => surfacesDir basedir ++ "/" ++ (tag ++ s ++ ".rxb"))).all isfile
       then Except.ok (some (names.map (fun s => surfacesDir basedir ++ "/" ++ (tag ++ s ++ ".rxb"))))
       else Except.ok none) := by
    unfold surface_variant_files
    rw [h]
  by_cases hall :
      (names.map (fun s => surfacesDir basedir ++ "/" ++ (tag ++ s ++ ".rxb"))).all isfile = true
  · rw [e, if_pos hall]
    refine ⟨by simp [hall], by simp [hall], ?_, rfl, rfl, rfl, rfl, rfl⟩
    intro l hl
    simpa using hl.symm
  · rw [e, if_neg hall]
    refine ⟨by simp [hall], by simp [Bool.not_eq_true] at hall; simp [hall], ?_,
      rfl, rfl, rfl, rfl, rfl⟩
    intro l hl
    simp at hl

/-- Witness for C5 at a one-surface config and the `de_` tag: a full
filesystem yields the complete list, an empty one yields `none`. -/
theorem surface_variant_files_all_or_none_witness :
    surface_variant_files "de_" (fun _ => true) "b" ⟨[⟨some "s", some "t"⟩], none⟩ =
      Except.ok (some ["b/output/surfaces/de_s.rxb"])
    ∧ surface_variant_files "de_" (fun _ => false) "b" ⟨[⟨some "s", some "t"⟩], none⟩ =
      Except.ok none :=
  ⟨(surface_variant_files_all_or_none "de_" (fun _ => true) "b" ⟨[⟨some "s", some "t"⟩], none⟩
      ["s"] rfl).1.mpr rfl,
   (surface_variant_files_all_or_none "de_" (fun _ => false) "b" ⟨[⟨some "s", some "t"⟩], none⟩
      ["s"] rfl).2.1.mpr rfl⟩

/-- C1 counterexample: with 3 base surface files and 2 error files the
constructor does fail, but with the `IndexError` raised by the
`surfacefiles_de[i]` lookup in the attribute loop, not with the
`ValueError` used by the surfacenames/wellnames length checks; and a
`surfacefiles_de` list longer than `surfacefiles` is accepted without
any length-mismatch error. -/
theorem hv_init_counterexample :
    hv_init ["a.rxb", "b.rxb", "c.rxb"] ["a_de.rxb", "b_de.rxb"] ["w.txt"]
        none none none "depth (m)" 1
      = Except.error PyErr.indexError
    ∧ (Except.error PyErr.indexError : Except PyErr HVState)
      ≠ Except.error (PyErr.valueError
          "List of surface names specified should be same length as list of surfacefiles")
    ∧ hv_init ["a.rxb", "b.rxb"] ["a_de.rxb", "b_de.rxb", "c_de.rxb"] ["w.txt"]
        none none none "depth (m)" 1
      ≠ Except.error PyErr.indexError := by
  refine ⟨rfl, by decide, ?_⟩
  intro h
  exact absurd h (by decide)

/-- C1 (amended): whenever `surfacefiles_de` is shorter than
`surfacefiles`, construction fails with the `IndexError` from indexing
`surfacefiles_de` in the attribute loop; there is no named-list
length-mismatch check between the two lists. -/
theorem hv_init_short_de_raises (surfacefiles surfacefiles_de wellfiles : List String)
    (surfacenames wellnames : Option (List String)) (zonelog : Option String)
    (zunit : String) (zonemin : Int)
    (h : surfacefiles_de.length < surfacefiles.length) :
    hv_init surfacefiles surfacefiles_de wellfiles surfacenames wellnames zonelog zunit zonemin
      = Except.error PyErr.indexError := by
  unfold hv_init
  rw [if_pos h]

/-- Witness for the amended C1 at the 3-base/2-error instance. -/
theorem hv_init_short_de_raises_witness :
    hv_init ["a.rxb", "b.rxb", "c.rxb"] ["a_de.rxb", "b_de.rxb"] ["w.txt"]
        none none none "depth (m)" 1
      = Except.error PyErr.indexError :=
  hv_init_short_de_raises ["a.rxb", "b.rxb", "c.rxb"] ["a_de.rxb", "b_de.rxb"] ["w.txt"]
    none none none "depth (m)" 1 (by decide)

/-- C4 counterexample: when the requested zonelog name is not among the
trajectory's columns, `plot_well_zonelog` returns Python `None` (the
bare `return`), which is not an empty sequence of zone segments. -/
theorem plot_well_zonelog_missing_counterexample :
    plot_well_zonelog [("A", [1])] [1] [1] "Zonelog" (-999) = Except.ok none
    ∧ (Except.ok none : Except PyErr (Option (List ZoneTrace)))
      ≠ Except.ok (some ([] : List ZoneTrace)) := by
  exact ⟨rfl, by decide⟩

/-- C4 (amended): when the requested zonelog name is absent from the
trajectory's columns, `plot_well_zonelog` returns the `None` sentinel
(nothing to draw) without failing — but that value is Python `None`,
not an empty sequence. -/
theorem plot_well_zonelog_missing_returns_none (df : List (String × List Int))
    (zvals hvals : List Int) (zonelogname : String) (zomin : Int)
    (h : df.lookup zonelogname = none) :
    plot_well_zonelog df zvals hvals zonelogname zomin = Except.ok none := by
  unfold plot_well_zonelog
  rw [h]

/-- Witness for the amended C4 at a concrete column-free trajectory. -/
theorem plot_well_zonelog_missing_returns_none_witness :
    plot_well_zonelog [("A", [1])] [1] [1] "Zonelog" (-999) = Except.ok none :=
  plot_well_zonelog_missing_returns_none [("A", [1])] [1] [1] "Zonelog" (-999) rfl

/-- C7: in the cross-section render callback, for every trigger other
than the well dropdown and the redrawn map polyline (in particular the
surface and error checklists) the stored fence is left unchanged and
the cross-section data is recomputed from that then-current fence. -/
theorem render_surface_fence_stable {F D : Type} (uid : String) (fenceFromWell : String → F)
    (fenceFromCoords : List (Int × Int) → F) (computeData : F → List String → List String → D)
    (trigger wellpath : String) (surfacepaths errorpaths : List String)
    (coords : List (Int × Int)) (fence : F)
    (hW : trigger ≠ idsOf uid "well-dropdown" ++ ".value")
    (hP : trigger ≠ idsOf uid "map-view" ++ ".polyline_points") :
    (renderSurface uid fenceFromWell fenceFromCoords computeData trigger wellpath
        surfacepaths errorpaths coords fence).1 = fence
    ∧ (renderSurface uid fenceFromWell fenceFromCoords computeData trigger wellpath
        surfacepaths errorpaths coords fence).2 = computeData fence surfacepaths errorpaths := by
  have h1 : (trigger == idsOf uid "well-dropdown" ++ ".value") = false :=
    beq_eq_false_iff_ne.mpr hW
  have h2 : (trigger == idsOf uid "map-view" ++ ".polyline_points") = false :=
    beq_eq_false_iff_ne.mpr hP
  simp [renderSurface, h1, h2]

/-- Witness for C7: a surfaces-checklist trigger leaves the fence (5)
in place and the data is computed from it. -/
theorem render_surface_fence_stable_witness :
    (renderSurface "u" (fun _ => (1 : Nat)) (fun _ => (2 : Nat)) (fun f _ _ => f)
        "surfaces-checklist-id-u.value" "w" ["s"] ["e"] [] 5).1 = 5
    ∧ (renderSurface "u" (fun _ => (1 : Nat)) (fun _ => (2 : Nat)) (fun f _ _ => f)
        "surfaces-checklist-id-u.value" "w" ["s"] ["e"] [] 5).2 = 5 :=
  render_surface_fence_stable "u" (fun _ => (1 : Nat)) (fun _ => (2 : Nat)) (fun f _ _ => f)
    "surfaces-checklist-id-u.value" "w" ["s"] ["e"] [] 5 (by decide) (by decide)

/-- C2 counterexample: on the spec's own example — codes
`[-999, -999, 0, 0, 1, 1, 2]` with `min_zone_code = 0` — the plotted
segments have 3, 3 and 1 samples for zones 0, 1 and 2, not the claimed
4, 3 and 2: the `-999` samples are not clipped up to zone 0, they are
masked out of every plotted segment. -/
theorem plot_well_zonelog_clip_counterexample :
    (plot_well_zonelog [("Zonelog", [-999, -999, 0, 0, 1, 1, 2])]
        [10, 11, 12, 13, 14, 15, 16] [0, 1, 2, 3, 4, 5, 6] "Zonelog" 0).map
        (Option.map (List.map (fun t => (t.name, t.x.length))))
      = Except.ok (some [("Zone: 0", 3), ("Zone: 1", 3), ("Zone: 2", 1)])
    ∧ (Except.ok (some [("Zone: 0", 3), ("Zone: 1", 3), ("Zone: 2", 1)]) :
          Except PyErr (Option (List (String × Nat))))
      ≠ Except.ok (some [("Zone: 0", 4), ("Zone: 1", 3), ("Zone: 2", 2)]) := by
  exact ⟨rfl, by decide⟩

/-- C2 (amended): codes below `min_zone_code` are not clipped; `zomin`
itself is only raised to the column minimum when that minimum exceeds
it, and samples whose code lies below the plotted range are excluded
from every plotted segment.  For the example codes
`[-999, -999, 0, 0, 1, 1, 2]` with `min_zone_code = 0` and any sample
values, the segments are: zone 0 with the 3 samples at original indices
2, 4, 3 (in that order), zone 1 with the 3 samples at indices 4, 6, 5,
and zone 2 with the single sample at index 6. -/
theorem plot_well_zonelog_sentinel_excluded
    (x0 x1 x2 x3 x4 x5 x6 y0 y1 y2 y3 y4 y5 y6 : Int) :
    plot_well_zonelog [("Zonelog", [-999, -999, 0, 0, 1, 1, 2])]
        [y0, y1, y2, y3, y4, y5, y6] [x0, x1, x2, x3, x4, x5, x6] "Zonelog" 0
      = Except.ok (some
          [⟨[x2, x4, x3], [y2, y4, y3], 5, "yellow", "yellow", "Zone: 0"⟩,
           ⟨[x4, x6, x5], [y4, y6, y5], 5, "orange", "orange", "Zone: 1"⟩,
           ⟨[x6], [y6], 5, "green", "green", "Zone: 2"⟩]) := by
  rfl

/-- C3 counterexample: for the trajectory with codes `[0, 0, 1]` and
distances `[0, 1, 2]`, the zone-0 segment's distances are `[0, 2, 1]`
and the zone-1 segment's are `[2]`: the transition sample *is*
duplicated into the outgoing segment, but it is inserted before that
segment's final sample, so the last distance of the earlier segment (1)
differs from the first distance of the later segment (2) — adjacent
segments do not share their junction endpoint. -/
theorem plot_well_zonelog_gap_counterexample :
    (plot_well_zonelog [("Zonelog", [0, 0, 1])] [5, 6, 7] [0, 1, 2] "Zonelog" 0).map
        (Option.map (List.map (fun t => t.x)))
      = Except.ok (some [[0, 2, 1], [2]])
    ∧ ([0, 2, 1] : List Int).getLast? ≠ ([2] : List Int).head? := by
  exact ⟨rfl, by decide⟩

/-- C3 (amended): at a zone transition the incoming boundary sample is
duplicated into the outgoing segment (with the outgoing code), so the
two adjacent segments share that sample's coordinates — but
`np.insert` places the copy before the outgoing segment's final sample,
second-to-last rather than last, so consecutive segments need not meet
at equal distances.  Concretely, for codes `[0, 0, 1]` and any sample
values, the zone-0 segment is `[x0, x2, x1]`/`[y0, y2, y1]` (the copy
of the zone-1 boundary sample `(x2, y2)` sits in second-to-last
position) and the zone-1 segment is `[x2]`/`[y2]`. -/
theorem plot_well_zonelog_boundary_duplicated (x0 x1 x2 y0 y1 y2 : Int) :
    plot_well_zonelog [("Zonelog", [0, 0, 1])] [y0, y1, y2] [x0, x1, x2] "Zonelog" 0
      = Except.ok (some
          [⟨[x0, x2, x1], [y0, y2, y1], 5, "yellow", "yellow", "Zone: 0"⟩,
           ⟨[x2], [y2], 5, "orange", "orange", "Zone: 1"⟩]) := by
  rfl

/-- Appending a common front part preserves lexicographic order of
character lists. -/
theorem charListLtAppend (p x y : List Char) (h : x < y) : p ++ x < p ++ y := by
  have h' : List.Lex (fun a b => a < b) x y := h
  show List.Lex (fun a b => a < b) (p ++ x) (p ++ y)
  induction p with
  | nil => exact h'
  | cons c cs ih => exact List.Lex.cons ih

/-- Appending a common front part is monotone for the string order, so
sorting full paths that share a directory part agrees with sorting the
bare file names. -/
theorem strAppendLeAppend (p a b : String) (h : a ≤ b) : p ++ a ≤ p ++ b := by
  rcases lt_or_eq_of_le h with hlt | heq
  · refine le_of_lt ?_
    have hl : a.toList < b.toList := String.lt_iff_toList_lt.mp hlt
    have h2 : p.toList ++ a.toList < p.toList ++ b.toList := charListLtAppend _ _ _ hl
    refine String.lt_iff_toList_lt.mpr ?_
    have e1 : (p ++ a).toList = p.toList ++ a.toList := String.data_append p a
    have e2 : (p ++ b).toList = p.toList ++ b.toList := String.data_append p b
    rw [e1, e2]
    exact h2
  · rw [heq]

/-- C9: `get_well_files` returns exactly the listed files whose
`pathlib` suffix is `.txt` — every such file and no other — and in
filename-sorted order: although the code sorts the joined full paths,
the shared directory part makes that the same list as the
filename-sorted selection mapped onto the directory. -/
theorem get_well_files_spec (basedir : String) (listing : List String) :
    get_well_files basedir listing
      = ((listing.filter (fun file => pySuffix file == ".txt")).mergeSort
          (fun a b => decide (a ≤ b))).map
          (fun file => basedir ++ "/input/welldata" ++ "/" ++ file)
    ∧ ∀ p, p ∈ get_well_files basedir listing ↔
        ∃ file, file ∈ listing ∧ pySuffix file = ".txt"
          ∧ p = basedir ++ "/input/welldata" ++ "/" ++ file := by
  constructor
  · apply List.eq_of_perm_of_sorted (r := fun a b : String => a ≤ b)
    · have p1 : (get_well_files basedir listing).Perm
          (((listing.filter (fun file => pySuffix file == ".txt")).map
            (fun file => basedir ++ "/input/welldata" ++ "/" ++ file))) :=
        List.mergeSort_perm _ _
      have p2 : (((listing.filter (fun file => pySuffix file == ".txt")).mergeSort
            (fun a b => decide (a ≤ b))).map
            (fun file => basedir ++ "/input/welldata" ++ "/" ++ file)).Perm
          (((listing.filter (fun file => pySuffix file == ".txt")).map
            (fun file => basedir ++ "/input/welldata" ++ "/" ++ file))) :=
        List.Perm.map _ (List.mergeSort_perm _ _)
      exact p1.trans p2.symm
    · exact List.sorted_mergeSort' _
    · have hs : List.Sorted (fun a b : String => a ≤ b)
          ((listing.filter (fun file => pySuffix file == ".txt")).mergeSort
            (fun a b => decide (a ≤ b))) := List.sorted_mergeSort' _
      exact List.Pairwise.map _ (fun a b hab =>
        strAppendLeAppend (basedir ++ "/input/welldata" ++ "/") a b hab) hs
  · intro p
    simp only [get_well_files, List.mem_mergeSort, List.mem_map, List.mem_filter, beq_iff_eq]
    constructor
    · rintro ⟨f, ⟨hm, hs⟩, he⟩
      exact ⟨f, hm, hs, he.symm⟩
    · rintro ⟨f, hm, hs, he⟩
      exact ⟨f, ⟨hm, hs⟩, he.symm⟩
